import Mathlib

/-!
Verification of the `data_tools` client pages (partial backup / partial
restore / doctype export / doctype import) against their natural-language
specification.  The JavaScript page classes are shallowly embedded: each
branching client function becomes a Lean function on explicit data, DOM
effects become explicit action values, and the recursive `setTimeout`
polling loops become list-consuming functions over the sequence of
job-status responses.
-/

namespace DataTools

/-! ## Shared data model -/

/-- One entry of a restore job's log: `(doctype, status, message)`,
as consumed by `PartialRestorePage.show_restore_log`. -/
structure RestoreLogEntry where
  doctype : String
  status : String
  message : String
deriving DecidableEq, Repr

/-- The `result.summary` object of a restore job result. -/
structure RestoreSummary where
  success : Nat
  errors : Nat
deriving DecidableEq, Repr

/-- A restore job's result payload: summary counts plus the per-DocType log. -/
structure RestoreResult where
  summary : RestoreSummary
  restore_log : List RestoreLogEntry
deriving DecidableEq, Repr

/-- One row of the parsed-backup preview table on the restore page:
a DocType name together with its `record_count`. -/
structure PreviewEntry where
  doctype : String
  record_count : Nat
deriving DecidableEq, Repr

/-- A DocType list item as served to the backup/export pages
(`get_all_doctypes` / `get_doctypes_by_app` response rows). -/
structure DoctypeItem where
  name : String
  module : String
deriving DecidableEq, Repr

/-! ## C5: blob MIME types of client downloads

`PartialBackupPage.download_backup` builds
`new Blob([array], { type: mime_type })` with
`mime_type = export_format === 'sql' ? 'application/sql' : 'application/zip'`;
`DocTypeExportPage.export_doctypes` always uses `'application/zip'`. -/

/-- The blob handed to the browser download: its MIME type and filename. -/
structure BlobDownload where
  mime_type : String
  filename : String
deriving DecidableEq, Repr

/-- `PartialBackupPage.download_backup`: the blob built in the success
callback, as a function of the page's `export_format` and the server-sent
filename. -/
def download_backup (export_format : String) (filename : String) : BlobDownload :=
  { mime_type := if export_format = "sql" then "application/sql" else "application/zip"
  , filename := filename }

/-- `DocTypeExportPage.export_doctypes`: the blob built in the success
callback (`new Blob([array], { type: 'application/zip' })`). -/
def export_doctypes_download (filename : String) : BlobDownload :=
  { mime_type := "application/zip", filename := filename }

/-! ## C7: preview footer totals

`PartialRestorePage.show_preview` renders the table footer from
`doctypes.length` and `doctypes.reduce((sum, dt) => sum + dt.record_count, 0)`. -/

/-- The two footer totals of the restore preview table, computed exactly as
`show_preview` computes them from the listed entries. -/
def show_preview_footer (doctypes : List PreviewEntry) : Nat × Nat :=
  (doctypes.length, doctypes.foldl (fun sum dt => sum + dt.record_count) 0)

/-! ## C9: empty-selection guards

`PartialBackupPage.create_backup`, `DocTypeExportPage.export_doctypes` and
`DocTypeImportPage.import_doctypes` each start with
`if (!selected || selected.length === 0) { msgprint(...); return; }`. -/

/-- What a selection-triggered operation does first: reject with a message
and return (no server call), or proceed with the selected DocTypes. -/
inductive SelectionGate where
  | reject (message : String)
  | proceed (doctypes : List String)
deriving DecidableEq, Repr

/-- `PartialBackupPage.create_backup`: the empty-selection guard before the
backup-type choice dialog is opened. -/
def create_backup (selected_doctypes : List String) : SelectionGate :=
  if selected_doctypes.length = 0 then
    SelectionGate.reject "Please select at least one DocType"
  else
    SelectionGate.proceed selected_doctypes

/-- `DocTypeExportPage.export_doctypes`: the empty-selection guard before
the `export_doctypes` server call. -/
def export_doctypes (selected_doctypes : List String) : SelectionGate :=
  if selected_doctypes.length = 0 then
    SelectionGate.reject "Please select at least one DocType"
  else
    SelectionGate.proceed selected_doctypes

/-- `DocTypeImportPage.import_doctypes`: the empty-selection guard before
the `import_doctypes` server call. -/
def import_doctypes (selected_doctypes : List String) : SelectionGate :=
  if selected_doctypes.length = 0 then
    SelectionGate.reject "Please select at least one DocType to import"
  else
    SelectionGate.proceed selected_doctypes

/-! ## C2 / C6: the polling loops

Both pages implement the same recursive-`setTimeout` shape: an inner
`check_status` closure issues a status query, inspects the response, and on
`queued`/`running` schedules itself again with `setTimeout(check_status, 2000)`.
We embed each page's `check_status` body as a function from a response to the
action it performs, and the loop as a function consuming the list of
responses the server would give to successive queries. -/

/-- A `get_job_status` response on the backup page:
`{status, progress?, error?}`. -/
structure BackupJobResponse where
  status : String
  progress : Option String
  error : Option String
deriving DecidableEq, Repr

/-- A `get_restore_job_status` response on the restore page:
`{status, progress?, result?, error?}`. -/
structure RestoreJobResponse where
  status : String
  progress : Option String
  result : Option RestoreResult
  error : Option String
deriving DecidableEq, Repr

/-- What the backup page's `check_status` callback does with one response:
call `download_backup(job_id)`, display a failure, or schedule the next
poll after `delay_ms` milliseconds. -/
inductive BackupPollAction where
  | download (job_id : String)
  | failure (message : String)
  | repoll (delay_ms : Nat)
deriving DecidableEq, Repr

/-- What the restore page's `check_status` callback does with one response:
render the restore log from the job result, display a failure, schedule the
next poll, or show "Unknown job status" (and stop). -/
inductive RestorePollAction where
  | showLog (result : Option RestoreResult)
  | failure (message : String)
  | repoll (delay_ms : Nat)
  | unknownStatus
deriving DecidableEq, Repr

/-- The branch structure of `check_status` inside
`PartialBackupPage.poll_job_status`: `completed` downloads, `failed` reports
the error, `running`/`queued` re-schedule after 2000 ms, and any other
status also keeps polling after 2000 ms. -/
def backup_check_status (job_id : String) (r : BackupJobResponse) : BackupPollAction :=
  if r.status = "completed" then
    BackupPollAction.download job_id
  else if r.status = "failed" then
    BackupPollAction.failure ("Backup failed: " ++ r.error.getD "Unknown error")
  else if r.status = "running" || r.status = "queued" then
    BackupPollAction.repoll 2000
  else
    BackupPollAction.repoll 2000

/-- The branch structure of `check_status` inside
`PartialRestorePage.poll_restore_job_status`: `completed` renders the log
from `job_data.result`, `failed` reports the error, `running`/`queued`
re-schedule after 2000 ms, and any other status stops with
"Unknown job status". -/
def restore_check_status (r : RestoreJobResponse) : RestorePollAction :=
  if r.status = "completed" then
    RestorePollAction.showLog r.result
  else if r.status = "failed" then
    RestorePollAction.failure ("Error restoring backup: " ++ r.error.getD "Unknown error")
  else if r.status = "running" || r.status = "queued" then
    RestorePollAction.repoll 2000
  else
    RestorePollAction.unknownStatus

/-- Whether the backup page's action re-schedules the poll (a `setTimeout`
was installed). -/
def backup_continues : BackupPollAction → Bool
  | BackupPollAction.repoll _ => true
  | _ => false

/-- Whether the restore page's action re-schedules the poll. -/
def restore_continues : RestorePollAction → Bool
  | RestorePollAction.repoll _ => true
  | _ => false

/-- The recursive-`setTimeout` loop, made explicit: consume one response,
record the action taken on it, and continue with the remaining responses
exactly when that action re-scheduled the poll. -/
def poll_loop {α β : Type} (step : α → β) (continues : β → Bool) :
    List α → List (α × β)
  | [] => []
  | r :: rs =>
    (r, step r) :: (if continues (step r) then poll_loop step continues rs else [])

/-- `PartialBackupPage.poll_job_status` run against a list of successive
status responses. -/
def poll_job_status (job_id : String) (responses : List BackupJobResponse) :
    List (BackupJobResponse × BackupPollAction) :=
  poll_loop (backup_check_status job_id) backup_continues responses

/-- `PartialRestorePage.poll_restore_job_status` run against a list of
successive status responses. -/
def poll_restore_job_status (responses : List RestoreJobResponse) :
    List (RestoreJobResponse × RestorePollAction) :=
  poll_loop restore_check_status restore_continues responses

/-- A terminal job status, per the job lifecycle. -/
def is_terminal (s : String) : Bool := s = "completed" || s = "failed"

/-- The prefix of the response list a poll-until-terminal client consumes:
everything up to and including the first terminal response. -/
def take_until_terminal {α : Type} (statusOf : α → String) : List α → List α
  | [] => []
  | r :: rs =>
    r :: (if is_terminal (statusOf r) then [] else take_until_terminal statusOf rs)

/-! ## C3: rendering the restore log

`PartialRestorePage.show_restore_log` renders a summary (success/error
badges) and then one `<tr>` per `result.restore_log` entry via
`result.restore_log.map(log => ...).join('')`. -/

/-- `PartialRestorePage.get_status_color`: badge color per log status. -/
def get_status_color (status : String) : String :=
  if status = "success" then "#28a745"
  else if status = "error" then "#dc3545"
  else if status = "warning" then "#ffc107"
  else if status = "partial" then "#fd7e14"
  else "#6c757d"

/-- The `<tr>` produced for one restore-log entry, showing the entry's
doctype, status (in a colored badge) and message. -/
def restore_log_row_html (log : RestoreLogEntry) : String :=
  "<tr><td>" ++ log.doctype
    ++ "</td><td><span class=\"badge\" style=\"background-color: "
    ++ get_status_color log.status ++ ";\">" ++ log.status
    ++ "</span></td><td>" ++ log.message ++ "</td></tr>"

/-- What `show_restore_log` puts into the log card: the two summary badges
and the list of table rows. -/
structure RenderedRestoreLog where
  success_badge : Nat
  errors_badge : Nat
  rows : List String
deriving DecidableEq, Repr

/-- `PartialRestorePage.show_restore_log`: summary badges from
`result.summary`, one row per `result.restore_log` entry. -/
def show_restore_log (result : RestoreResult) : RenderedRestoreLog :=
  { success_badge := result.summary.success
  , errors_badge := result.summary.errors
  , rows := result.restore_log.map restore_log_row_html }

/-! ## C10: selection-mutating operations

The `selected_doctypes` arrays are mutated by checkbox handlers (membership
check before push / filter on uncheck), the select-all and deselect-all
buttons, the restore preview's checkbox scan, and the dependency-dialog
merge (`[...new Set([...])]`). -/

/-- The checkbox `change` handler on the backup/export/import doctype lists:
on check, push the name unless already present; on uncheck, filter it out. -/
def doctype_checkbox_toggle (selected : List String) (doctype : String)
    (checked : Bool) : List String :=
  if checked then
    if doctype ∈ selected then selected else selected ++ [doctype]
  else
    selected.filter (fun dt => dt ≠ doctype)

/-- The Select All button: replace the selection with the names of the
currently filtered doctype list. -/
def select_all_doctypes (filtered_doctypes : List DoctypeItem) : List String :=
  filtered_doctypes.map DoctypeItem.name

/-- The Deselect All button. -/
def deselect_all_doctypes : List String := []

/-- `[...new Set(l)]`: JavaScript `Set` deduplication, keeping the first
occurrence of each element in insertion order. -/
def js_set_dedup (l : List String) : List String :=
  l.foldl (fun acc x => if x ∈ acc then acc else acc ++ [x]) []

/-- The dependency-dialog merge in
`PartialRestorePage.show_dependency_dialog`: when any dependencies were
accepted, the selection becomes `[...new Set([...selected, ...selected_deps])]`;
otherwise it is left unchanged. -/
def merge_selected_dependencies (selected_doctypes selected_deps : List String) :
    List String :=
  if selected_deps.length > 0 then js_set_dedup (selected_doctypes ++ selected_deps)
  else selected_doctypes

/-- `PartialRestorePage.update_selected_doctypes`: rebuild the selection
from the checked preview checkboxes (one checkbox per preview entry). -/
def update_selected_doctypes (entries : List PreviewEntry)
    (checked : PreviewEntry → Bool) : List String :=
  (entries.filter checked).map PreviewEntry.doctype

/-- `DocTypeImportPage.show_preview`: the initial selection is every
DocType listed in the parsed export file (all checkboxes start checked). -/
def import_preview_initial_selection (doctypes : List PreviewEntry) : List String :=
  doctypes.map PreviewEntry.doctype

/-! ## C1 / C8: the restore page's dependency round and restore request

`PartialRestorePage.restore_backup` consults `get_doctype_dependencies`
only when the selection is non-empty; when the resolver reports
dependencies it opens the dependency dialog, whose Continue action merges
the accepted dependencies into the selection and then calls
`confirm_and_restore` directly.  `confirm_and_restore` asks for
confirmation and issues `start_restore_job` with
`selected_doctypes: selected.length > 0 ? selected : null`.  We embed the
flow as the sequence of observable events it produces. -/

/-- The `get_doctype_dependencies` response shape. -/
structure DependencyResult where
  has_dependencies : Bool
  dependencies_by_doctype : List (String × List String)
  all_new_dependencies : List String
deriving DecidableEq, Repr

/-- The observable events of one restore-button flow: a resolver call, the
dependency dialog being shown, and the `start_restore_job` request with its
`selected_doctypes` argument (`none` encodes JavaScript `null`). -/
inductive RestoreEvent where
  | resolveCall (doctypes : List String)
  | dependencyDialog (all_new_dependencies : List String)
  | startRestore (selected_doctypes : Option (List String))
deriving DecidableEq, Repr

/-- `PartialRestorePage.confirm_and_restore`: if the user confirms, issue
the restore request, with `null` for an empty selection. -/
def confirm_and_restore (selected_doctypes : List String) (user_confirms : Bool) :
    List RestoreEvent :=
  if user_confirms then
    [RestoreEvent.startRestore
      (if selected_doctypes.length > 0 then some selected_doctypes else none)]
  else []

/-- The Continue action of `PartialRestorePage.show_dependency_dialog`:
merge the accepted dependencies into the selection, then proceed directly
to `confirm_and_restore` (no second resolver call). -/
def show_dependency_dialog_continue (selected_doctypes selected_deps : List String)
    (user_confirms : Bool) : List RestoreEvent :=
  confirm_and_restore (merge_selected_dependencies selected_doctypes selected_deps)
    user_confirms

/-- `PartialRestorePage.restore_backup`: the full event sequence of one
click of the Restore button, given the resolver's behavior, the
dependencies the user leaves checked in the dialog, and whether the user
confirms the final dialog. -/
def restore_backup_events (selected_doctypes : List String)
    (resolver : List String → DependencyResult)
    (selected_deps : List String) (user_confirms : Bool) : List RestoreEvent :=
  if selected_doctypes.length > 0 then
    RestoreEvent.resolveCall selected_doctypes ::
      (if (resolver selected_doctypes).has_dependencies then
        RestoreEvent.dependencyDialog (resolver selected_doctypes).all_new_dependencies ::
          show_dependency_dialog_continue selected_doctypes selected_deps user_confirms
      else
        confirm_and_restore selected_doctypes user_confirms)
  else
    confirm_and_restore selected_doctypes user_confirms

/-! ## C4: the Restore Engine (modelled from the spec)

The server-side Restore Engine is code of this repository that is not
under `src/` — only its JavaScript callers are.  The definitions below are
modelled from the spec (§4.4): per DocType, in the archive's order, create
the DocType if missing, strip system-managed fields, insert records with
duplicate-skipping by `name`, all inside one transaction per DocType; an
unexpected failure rolls back that DocType's transaction only, logs
`error`, and processing continues with the next DocType. -/

/-- Modelled from the spec: a record in a backup archive — its unique
identifier `name` plus its field/value pairs. -/
structure ArchiveRecord where
  name : String
  fields : List (String × String)
deriving DecidableEq, Repr

/-- Modelled from the spec: one archive entry — a DocType with its ordered
record list. -/
structure ArchiveEntry where
  doctype : String
  records : List ArchiveRecord
deriving DecidableEq, Repr

/-- Modelled from the spec: the target system's state — the schema catalog
and the record store, rows keyed by (doctype, record). -/
structure TargetState where
  schemas : List String
  store : List (String × ArchiveRecord)
deriving DecidableEq, Repr

/-- Modelled from the spec: the system-managed fields stripped from every
record before insert. -/
def system_managed_fields : List String :=
  ["owner", "modified_by", "creation", "modified"]

/-- Modelled from the spec: strip system-managed fields from a record. -/
def strip_system_fields (r : ArchiveRecord) : ArchiveRecord :=
  { r with fields := r.fields.filter (fun f => f.1 ∉ system_managed_fields) }

/-- Modelled from the spec: record-existence check by unique identifier. -/
def record_exists (st : TargetState) (doctype : String) (name : String) : Bool :=
  st.store.any (fun p => p.1 == doctype && p.2.name == name)

/-- Modelled from the spec: import one DocType's records — skip records
whose `name` already exists (counting them), insert the rest stripped of
system fields; returns the new state and the skipped-record count. -/
def import_records (doctype : String) (records : List ArchiveRecord)
    (st : TargetState) : TargetState × Nat :=
  records.foldl
    (fun acc r =>
      if record_exists acc.1 doctype r.name then (acc.1, acc.2 + 1)
      else
        ({ acc.1 with store := acc.1.store ++ [(doctype, strip_system_fields r)] },
          acc.2))
    (st, 0)

/-- Modelled from the spec: process one DocType with no unexpected failure —
create the DocType if missing, import its records, log `success` with the
skip count reported in the message. -/
def process_doctype (entry : ArchiveEntry) (st : TargetState) :
    TargetState × RestoreLogEntry :=
  let st1 :=
    if entry.doctype ∈ st.schemas then st
    else { st with schemas := st.schemas ++ [entry.doctype] }
  let res := import_records entry.doctype entry.records st1
  (res.1,
    ⟨entry.doctype, "success",
      if res.2 > 0 then "Imported with " ++ toString res.2 ++ " records skipped"
      else "Imported successfully"⟩)

/-- Modelled from the spec: the `error` log message for a DocType whose
transaction failed and was rolled back. -/
def restore_error_message (doctype : String) : String :=
  "Unexpected failure while restoring " ++ doctype ++ ", transaction rolled back"

/-- Modelled from the spec: one step of the restore loop.  An unexpected
failure (designated by the failure oracle `fails`) rolls the DocType's
transaction back — the state is returned unchanged — and logs `error`;
otherwise the DocType is processed inside its own transaction. -/
def restore_step (fails : String → Bool) (st : TargetState) (entry : ArchiveEntry) :
    TargetState × RestoreLogEntry :=
  if fails entry.doctype then
    (st, ⟨entry.doctype, "error", restore_error_message entry.doctype⟩)
  else
    process_doctype entry st

/-- Modelled from the spec: the restore loop — DocTypes processed strictly
sequentially in the archive's order, each appending one log entry. -/
def restore (fails : String → Bool) :
    List ArchiveEntry → TargetState → TargetState × List RestoreLogEntry
  | [], st => (st, [])
  | e :: rest, st =>
    ((restore fails rest (restore_step fails st e).1).1,
      (restore_step fails st e).2 :: (restore fails rest (restore_step fails st e).1).2)

/-! ## Theorems -/

/-- Every pair recorded by `poll_loop` is a consumed response together with
the action the step function takes on it. -/
theorem poll_loop_mem {α β : Type} (step : α → β) (continues : β → Bool) :
    ∀ (rs : List α) (p : α × β), p ∈ poll_loop step continues rs →
      p.2 = step p.1 ∧ p.1 ∈ rs := by
  intro rs
  induction rs with
  | nil => intro p hp; simp [poll_loop] at hp
  | cons r rest ih =>
    intro p hp
    simp only [poll_loop] at hp
    rcases List.mem_cons.mp hp with h | h
    · subst h; exact ⟨rfl, List.mem_cons_self _ _⟩
    · by_cases hc : continues (step r)
      · rw [if_pos hc] at h
        rcases ih p h with ⟨h1, h2⟩
        exact ⟨h1, List.mem_cons_of_mem _ h2⟩
      · rw [if_neg hc] at h
        simp at h

/-- When the step function re-schedules exactly on non-terminal statuses,
the loop consumes precisely the prefix of responses up to and including the
first terminal one. -/
theorem poll_loop_map_fst {α β : Type} (step : α → β) (continues : β → Bool)
    (statusOf : α → String) :
    ∀ rs : List α, (∀ r ∈ rs, continues (step r) = !is_terminal (statusOf r)) →
      (poll_loop step continues rs).map Prod.fst = take_until_terminal statusOf rs := by
  intro rs
  induction rs with
  | nil => intro _; rfl
  | cons r rest ih =>
    intro h
    have hr := h r (List.mem_cons_self _ _)
    have hrest : ∀ x ∈ rest, continues (step x) = !is_terminal (statusOf x) :=
      fun x hx => h x (List.mem_cons_of_mem _ hx)
    cases ht : is_terminal (statusOf r)
    · rw [ht] at hr
      simp only [Bool.not_false] at hr
      simp [poll_loop, take_until_terminal, hr, ht, ih hrest]
    · rw [ht] at hr
      simp only [Bool.not_true] at hr
      simp [poll_loop, take_until_terminal, hr, ht]

/-- On a valid job status, the backup page's callback re-schedules exactly
when the status is non-terminal. -/
theorem backup_status_continues (job_id : String) (r : BackupJobResponse)
    (h : r.status = "queued" ∨ r.status = "running"
        ∨ r.status = "completed" ∨ r.status = "failed") :
    backup_continues (backup_check_status job_id r) = !is_terminal r.status := by
  rcases h with h | h | h | h <;>
    simp [backup_check_status, is_terminal, backup_continues, h]

/-- On a valid job status, the restore page's callback re-schedules exactly
when the status is non-terminal. -/
theorem restore_status_continues (r : RestoreJobResponse)
    (h : r.status = "queued" ∨ r.status = "running"
        ∨ r.status = "completed" ∨ r.status = "failed") :
    restore_continues (restore_check_status r) = !is_terminal r.status := by
  rcases h with h | h | h | h <;>
    simp [restore_check_status, is_terminal, restore_continues, h]

/-- C5: every archive the client downloads in the JSON export format — the
partial backup with `export_format = 'json'` and the DocType schema export —
is packaged into a blob whose MIME type is `application/zip`. -/
theorem archive_downloads_are_zip (filename : String) :
    (download_backup "json" filename).mime_type = "application/zip"
    ∧ (export_doctypes_download filename).mime_type = "application/zip" := by
  constructor
  · simp [download_backup]
  · rfl

/-- C7: the restore-preview footer totals are computed from the listed
entries themselves — the DocType total is the number of entries and the
record total is the sum of their `record_count`s; in particular an archive
with two DocTypes of 10 and 5 records shows 2 DocTypes and 15 records. -/
theorem preview_footer_totals (doctypes : List PreviewEntry) :
    (show_preview_footer doctypes).1 = doctypes.length
    ∧ (show_preview_footer doctypes).2 = (doctypes.map PreviewEntry.record_count).sum
    ∧ show_preview_footer [⟨"Customer", 10⟩, ⟨"Territory", 5⟩] = (2, 15) := by
  refine ⟨rfl, ?_, by decide⟩
  show (doctypes.foldl (fun sum dt => sum + dt.record_count) 0)
      = (doctypes.map PreviewEntry.record_count).sum
  have step : ∀ (l : List PreviewEntry) (a : Nat),
      l.foldl (fun sum dt => sum + dt.record_count) a
        = a + (l.map PreviewEntry.record_count).sum := by
    intro l
    induction l with
    | nil => intro a; simp
    | cons x xs ih => intro a; simp [List.foldl_cons, ih, Nat.add_assoc]
  simpa using step doctypes 0

/-- C9: triggering a backup, schema export, or schema import with an empty
selection is rejected on the client with a "Please select at least one
DocType" message and no server call. -/
theorem empty_selection_rejected :
    create_backup [] = SelectionGate.reject "Please select at least one DocType"
    ∧ export_doctypes [] = SelectionGate.reject "Please select at least one DocType"
    ∧ import_doctypes []
        = SelectionGate.reject "Please select at least one DocType to import" :=
  ⟨rfl, rfl, rfl⟩

/-- The JavaScript-`Set` fold keeps an accumulator without duplicates. -/
theorem js_set_dedup_fold_nodup (l : List String) :
    ∀ acc : List String, acc.Nodup →
      (l.foldl (fun acc x => if x ∈ acc then acc else acc ++ [x]) acc).Nodup := by
  induction l with
  | nil => intro acc h; exact h
  | cons x xs ih =>
    intro acc h
    simp only [List.foldl_cons]
    by_cases hx : x ∈ acc
    · rw [if_pos hx]; exact ih acc h
    · rw [if_neg hx]
      apply ih
      rw [List.nodup_append]
      refine ⟨h, List.nodup_singleton x, ?_⟩
      intro y hy hy2
      rw [List.mem_singleton] at hy2
      exact hx (hy2 ▸ hy)

/-- `[...new Set(l)]` never contains a duplicate. -/
theorem js_set_dedup_nodup (l : List String) : (js_set_dedup l).Nodup :=
  js_set_dedup_fold_nodup l [] List.nodup_nil

/-- The JavaScript-`Set` fold never shrinks a non-empty accumulator to
empty. -/
theorem js_set_dedup_fold_ne_nil (l : List String) :
    ∀ acc : List String, acc ≠ [] →
      l.foldl (fun acc x => if x ∈ acc then acc else acc ++ [x]) acc ≠ [] := by
  induction l with
  | nil => intro acc h; exact h
  | cons x xs ih =>
    intro acc h
    simp only [List.foldl_cons]
    by_cases hx : x ∈ acc
    · rw [if_pos hx]; exact ih acc h
    · rw [if_neg hx]
      exact ih _ (by simp)

/-- `[...new Set(l)]` of a non-empty list is non-empty. -/
theorem js_set_dedup_ne_nil (l : List String) (h : l ≠ []) : js_set_dedup l ≠ [] := by
  cases l with
  | nil => exact absurd rfl h
  | cons x xs =>
    unfold js_set_dedup
    simp only [List.foldl_cons]
    rw [if_neg (List.not_mem_nil x)]
    exact js_set_dedup_fold_ne_nil xs ([] ++ [x]) (by simp)

/-- The dependency-dialog merge either leaves the selection unchanged (no
dependency accepted) or replaces it with the deduplicated concatenation. -/
theorem merge_selected_dependencies_cases (selected selected_deps : List String) :
    merge_selected_dependencies selected selected_deps = selected
    ∨ merge_selected_dependencies selected selected_deps
        = js_set_dedup (selected ++ selected_deps) := by
  unfold merge_selected_dependencies
  by_cases h : selected_deps.length > 0
  · right; rw [if_pos h]
  · left; rw [if_neg h]

/-- A non-empty selection stays non-empty through the dependency merge. -/
theorem merge_selected_dependencies_ne_nil (selected selected_deps : List String)
    (h : selected ≠ []) :
    merge_selected_dependencies selected selected_deps ≠ [] := by
  unfold merge_selected_dependencies
  by_cases hd : selected_deps.length > 0
  · rw [if_pos hd]
    apply js_set_dedup_ne_nil
    cases selected with
    | nil => exact absurd rfl h
    | cons x xs => simp
  · rw [if_neg hd]; exact h

/-- C2: both polling loops schedule the next status query exactly 2000 ms
after observing `queued` or `running`, keep polling until a terminal status
(`completed`/`failed`) is observed — consuming exactly the prefix of
responses up to and including the first terminal one — and schedule no
further poll once a terminal status has been observed. -/
theorem poll_loops_fixed_interval_until_terminal
    (job_id : String) (brs : List BackupJobResponse) (rrs : List RestoreJobResponse)
    (hb : ∀ r ∈ brs, r.status = "queued" ∨ r.status = "running"
        ∨ r.status = "completed" ∨ r.status = "failed")
    (hr : ∀ r ∈ rrs, r.status = "queued" ∨ r.status = "running"
        ∨ r.status = "completed" ∨ r.status = "failed") :
    ((poll_job_status job_id brs).map Prod.fst
        = take_until_terminal BackupJobResponse.status brs)
    ∧ (∀ p ∈ poll_job_status job_id brs,
        (p.1.status = "queued" ∨ p.1.status = "running") →
          p.2 = BackupPollAction.repoll 2000)
    ∧ (∀ p ∈ poll_job_status job_id brs,
        is_terminal p.1.status = true → ∀ d, p.2 ≠ BackupPollAction.repoll d)
    ∧ ((poll_restore_job_status rrs).map Prod.fst
        = take_until_terminal RestoreJobResponse.status rrs)
    ∧ (∀ p ∈ poll_restore_job_status rrs,
        (p.1.status = "queued" ∨ p.1.status = "running") →
          p.2 = RestorePollAction.repoll 2000)
    ∧ (∀ p ∈ poll_restore_job_status rrs,
        is_terminal p.1.status = true → ∀ d, p.2 ≠ RestorePollAction.repoll d) := by
  refine ⟨?_, ?_, ?_, ?_, ?_, ?_⟩
  · exact poll_loop_map_fst _ _ _ brs
      (fun r h => backup_status_continues job_id r (hb r h))
  · intro p hp hq
    have hstep := (poll_loop_mem _ _ brs p hp).1
    rcases hq with h | h <;> simp [hstep, backup_check_status, h]
  · intro p hp ht d
    have hstep := (poll_loop_mem _ _ brs p hp).1
    have hs : p.1.status = "completed" ∨ p.1.status = "failed" := by
      simpa [is_terminal] using ht
    rcases hs with h | h <;> simp [hstep, backup_check_status, h]
  · exact poll_loop_map_fst _ _ _ rrs
      (fun r h => restore_status_continues r (hr r h))
  · intro p hp hq
    have hstep := (poll_loop_mem _ _ rrs p hp).1
    rcases hq with h | h <;> simp [hstep, restore_check_status, h]
  · intro p hp ht d
    have hstep := (poll_loop_mem _ _ rrs p hp).1
    have hs : p.1.status = "completed" ∨ p.1.status = "failed" := by
      simpa [is_terminal] using ht
    rcases hs with h | h <;> simp [hstep, restore_check_status, h]

/-- Witness for C2: a concrete queued/running/completed response sequence on
both pages; the loop consumes all three responses and stops at `completed`. -/
theorem poll_loops_fixed_interval_until_terminal_witness :
    (poll_job_status "job-1"
        [⟨"queued", none, none⟩, ⟨"running", none, none⟩, ⟨"completed", none, none⟩]).map
        Prod.fst
      = take_until_terminal BackupJobResponse.status
        [⟨"queued", none, none⟩, ⟨"running", none, none⟩, ⟨"completed", none, none⟩] :=
  (poll_loops_fixed_interval_until_terminal "job-1"
    [⟨"queued", none, none⟩, ⟨"running", none, none⟩, ⟨"completed", none, none⟩]
    [⟨"queued", none, none, none⟩, ⟨"completed", none, none, none⟩]
    (by decide) (by decide)).1

/-- C6: upon a terminal status, each page fetches exactly the result
appropriate to the job kind — the backup page on `completed` requests the
download payload for that job id, the restore page on `completed` renders
the restore log from the job result; on `failed` each page displays the
job's error message and fetches no result payload. -/
theorem terminal_status_result_fetch
    (job_id : String) (br : BackupJobResponse) (rr : RestoreJobResponse) :
    (br.status = "completed" →
      backup_check_status job_id br = BackupPollAction.download job_id)
    ∧ (br.status = "failed" →
      backup_check_status job_id br
          = BackupPollAction.failure ("Backup failed: " ++ br.error.getD "Unknown error")
        ∧ ∀ j, backup_check_status job_id br ≠ BackupPollAction.download j)
    ∧ (rr.status = "completed" →
      restore_check_status rr = RestorePollAction.showLog rr.result)
    ∧ (rr.status = "failed" →
      restore_check_status rr
          = RestorePollAction.failure
              ("Error restoring backup: " ++ rr.error.getD "Unknown error")
        ∧ ∀ res, restore_check_status rr ≠ RestorePollAction.showLog res) := by
  refine ⟨?_, ?_, ?_, ?_⟩
  · intro h; simp [backup_check_status, h]
  · intro h
    constructor
    · simp [backup_check_status, h]
    · intro j; simp [backup_check_status, h]
  · intro h; simp [restore_check_status, h]
  · intro h
    constructor
    · simp [restore_check_status, h]
    · intro res; simp [restore_check_status, h]

/-- Witness for C6: a completed backup response triggers the download of
that job id, and a failed restore response reports the captured error. -/
theorem terminal_status_result_fetch_witness :
    backup_check_status "job-9" ⟨"completed", none, none⟩
        = BackupPollAction.download "job-9"
    ∧ restore_check_status ⟨"failed", none, none, some "boom"⟩
        = RestorePollAction.failure "Error restoring backup: boom" :=
  ⟨(terminal_status_result_fetch "job-9" ⟨"completed", none, none⟩
      ⟨"failed", none, none, some "boom"⟩).1 rfl,
   ((terminal_status_result_fetch "job-9" ⟨"completed", none, none⟩
      ⟨"failed", none, none, some "boom"⟩).2.2.2 rfl).1⟩

/-- C3: for a completed restore job the page renders the complete restore
log — one table row per `restore_log` entry showing that entry's doctype,
status and message — and the rows do not depend on `summary.errors`. -/
theorem restore_log_rendered_completely
    (summary : RestoreSummary) (log : List RestoreLogEntry) :
    ((show_restore_log ⟨summary, log⟩).rows.length = log.length)
    ∧ (∀ i : Nat, (show_restore_log ⟨summary, log⟩).rows[i]?
        = (log[i]?).map restore_log_row_html)
    ∧ (∀ other : RestoreSummary,
        (show_restore_log ⟨other, log⟩).rows = (show_restore_log ⟨summary, log⟩).rows)
    ∧ (∀ rr : RestoreJobResponse, rr.status = "completed" →
        restore_check_status rr = RestorePollAction.showLog rr.result) := by
  refine ⟨by simp [show_restore_log], ?_, fun other => rfl, ?_⟩
  · intro i
    simp [show_restore_log]
  · intro rr h
    simp [restore_check_status, h]

/-- Witness for C3: a completed response whose result mixes a success and
an error entry still hands the full result to the renderer. -/
theorem restore_log_rendered_completely_witness :
    restore_check_status
        ⟨"completed", none,
          some ⟨⟨1, 1⟩, [⟨"Customer", "success", "Imported 10 records"⟩,
            ⟨"Territory", "error", "Import failed"⟩]⟩, none⟩
      = RestorePollAction.showLog
          (some ⟨⟨1, 1⟩, [⟨"Customer", "success", "Imported 10 records"⟩,
            ⟨"Territory", "error", "Import failed"⟩]⟩) :=
  (restore_log_rendered_completely ⟨1, 1⟩ []).2.2.2 _ rfl

/-- C10: duplicate-freeness of `selected_doctypes` is preserved by every
selection-mutating operation, given that the rendered DocType lists
themselves carry no duplicate names (DocType names are unique ids). -/
theorem selected_doctypes_nodup_invariant :
    (∀ (sel : List String) (d : String) (c : Bool), sel.Nodup →
        (doctype_checkbox_toggle sel d c).Nodup)
    ∧ (∀ (doctypes : List DoctypeItem) (p : DoctypeItem → Bool),
        (doctypes.map DoctypeItem.name).Nodup →
          (select_all_doctypes (doctypes.filter p)).Nodup)
    ∧ deselect_all_doctypes.Nodup
    ∧ (∀ sel deps : List String, sel.Nodup →
        (merge_selected_dependencies sel deps).Nodup)
    ∧ (∀ (entries : List PreviewEntry) (checked : PreviewEntry → Bool),
        (entries.map PreviewEntry.doctype).Nodup →
          (update_selected_doctypes entries checked).Nodup)
    ∧ (∀ doctypes : List PreviewEntry,
        (doctypes.map PreviewEntry.doctype).Nodup →
          (import_preview_initial_selection doctypes).Nodup) := by
  refine ⟨?_, ?_, List.nodup_nil, ?_, ?_, ?_⟩
  · intro sel d c h
    cases c with
    | false => simpa [doctype_checkbox_toggle] using h.filter _
    | true =>
      by_cases hd : d ∈ sel
      · simpa [doctype_checkbox_toggle, hd] using h
      · simp only [doctype_checkbox_toggle, if_true, if_neg hd]
        rw [List.nodup_append]
        refine ⟨h, List.nodup_singleton d, ?_⟩
        intro y hy hy2
        rw [List.mem_singleton] at hy2
        exact hd (hy2 ▸ hy)
  · intro doctypes p h
    have hsub : List.Sublist ((doctypes.filter p).map DoctypeItem.name)
        (doctypes.map DoctypeItem.name) :=
      (List.filter_sublist _).map _
    exact h.sublist hsub
  · intro sel deps h
    unfold merge_selected_dependencies
    by_cases hd : deps.length > 0
    · rw [if_pos hd]; exact js_set_dedup_nodup _
    · rw [if_neg hd]; exact h
  · intro entries checked h
    have hsub : List.Sublist ((entries.filter checked).map PreviewEntry.doctype)
        (entries.map PreviewEntry.doctype) :=
      (List.filter_sublist _).map _
    exact h.sublist hsub
  · intro doctypes h
    exact h

/-- Witness for C10: each selection-mutating operation applied to concrete
duplicate-free inputs yields a duplicate-free selection. -/
theorem selected_doctypes_nodup_invariant_witness :
    (doctype_checkbox_toggle ["Customer"] "Territory" true).Nodup
    ∧ (select_all_doctypes
        ([⟨"Customer", "Selling"⟩, ⟨"Territory", "Setup"⟩].filter
          (fun d => d.module == "Selling"))).Nodup
    ∧ (merge_selected_dependencies ["Customer"] ["Customer", "Territory"]).Nodup
    ∧ (update_selected_doctypes [⟨"Customer", 10⟩, ⟨"Territory", 5⟩]
        (fun e => e.record_count == 10)).Nodup
    ∧ (import_preview_initial_selection [⟨"Customer", 10⟩, ⟨"Territory", 5⟩]).Nodup :=
  ⟨selected_doctypes_nodup_invariant.1 ["Customer"] "Territory" true (by decide),
   selected_doctypes_nodup_invariant.2.1 [⟨"Customer", "Selling"⟩, ⟨"Territory", "Setup"⟩]
     (fun d => d.module == "Selling") (by decide),
   selected_doctypes_nodup_invariant.2.2.2.1 ["Customer"] ["Customer", "Territory"]
     (by decide),
   selected_doctypes_nodup_invariant.2.2.2.2.1 [⟨"Customer", 10⟩, ⟨"Territory", 5⟩]
     (fun e => e.record_count == 10) (by decide),
   selected_doctypes_nodup_invariant.2.2.2.2.2 [⟨"Customer", 10⟩, ⟨"Territory", 5⟩]
     (by decide)⟩

/-- A resolver realizing the spec's end-to-end scenario: `Customer` has a
link field to `Territory`; any other selection has no new dependencies. -/
def customer_territory_resolver : List String → DependencyResult := fun sel =>
  if sel = ["Customer"] then
    { has_dependencies := true
    , dependencies_by_doctype := [("Customer", ["Territory"])]
    , all_new_dependencies := ["Territory"] }
  else
    { has_dependencies := false
    , dependencies_by_doctype := []
    , all_new_dependencies := [] }

/-- Counterexample to C1: selecting `Customer`, accepting the offered
dependency `Territory`, and confirming produces a trace whose only resolver
call is on the original selection `["Customer"]` — the resolver is never
consulted on the expanded selection `["Customer", "Territory"]` before the
restore request is issued. -/
theorem restore_dependency_no_revalidation_counterexample :
    restore_backup_events ["Customer"] customer_territory_resolver ["Territory"] true
      = [RestoreEvent.resolveCall ["Customer"],
         RestoreEvent.dependencyDialog ["Territory"],
         RestoreEvent.startRestore (some ["Customer", "Territory"])]
    ∧ RestoreEvent.resolveCall ["Customer", "Territory"]
        ∉ restore_backup_events ["Customer"] customer_territory_resolver
            ["Territory"] true := by
  decide

/-- C1 (amended): after the resolver reports dependencies and the user
accepts some of them and confirms, exactly one resolution round occurs (on
the originally checked selection); the dialog's Continue action merges the
accepted dependencies into the selection and the restore request is issued
directly on the expanded selection, without a second resolver call. -/
theorem restore_dependency_single_round
    (selected : List String) (resolver : List String → DependencyResult)
    (selected_deps : List String)
    (hsel : selected ≠ [])
    (hdep : (resolver selected).has_dependencies = true)
    (hacc : selected_deps ≠ []) :
    restore_backup_events selected resolver selected_deps true
      = [RestoreEvent.resolveCall selected,
         RestoreEvent.dependencyDialog (resolver selected).all_new_dependencies,
         RestoreEvent.startRestore (some (js_set_dedup (selected ++ selected_deps)))] := by
  have hlen : selected.length > 0 := List.length_pos.mpr hsel
  have hlen2 : selected_deps.length > 0 := List.length_pos.mpr hacc
  have hmerge : merge_selected_dependencies selected selected_deps
      = js_set_dedup (selected ++ selected_deps) := by
    unfold merge_selected_dependencies
    rw [if_pos hlen2]
  have hne : js_set_dedup (selected ++ selected_deps) ≠ [] := by
    apply js_set_dedup_ne_nil
    cases selected with
    | nil => exact absurd rfl hsel
    | cons x xs => simp
  have hne_len : (js_set_dedup (selected ++ selected_deps)).length > 0 :=
    List.length_pos.mpr hne
  simp [restore_backup_events, show_dependency_dialog_continue, confirm_and_restore,
    hlen, hdep, hmerge, hne_len]

/-- Witness for the amended C1: the spec's Customer/Territory scenario,
with the user accepting `Territory` and confirming. -/
theorem restore_dependency_single_round_witness :
    restore_backup_events ["Customer"] customer_territory_resolver ["Territory"] true
      = [RestoreEvent.resolveCall ["Customer"],
         RestoreEvent.dependencyDialog ["Territory"],
         RestoreEvent.startRestore (some ["Customer", "Territory"])] := by
  have h := restore_dependency_single_round ["Customer"] customer_territory_resolver
    ["Territory"] (by decide) (by decide) (by decide)
  rw [h]
  decide

/-- C8: the resolver is consulted only for a non-empty selection; an empty
selection issues the restore request with `selected_doctypes = null` and
never resolves dependencies or opens the dependency dialog; a non-empty
selection is resolved and the request carries exactly the (possibly
dependency-expanded) selected DocType names, never `null`. -/
theorem restore_selection_gating
    (resolver : List String → DependencyResult)
    (selected selected_deps : List String) (user_confirms : Bool) :
    (restore_backup_events [] resolver selected_deps user_confirms
        = if user_confirms then [RestoreEvent.startRestore none] else [])
    ∧ (∀ ds, RestoreEvent.resolveCall ds
        ∉ restore_backup_events [] resolver selected_deps user_confirms)
    ∧ (∀ ds, RestoreEvent.dependencyDialog ds
        ∉ restore_backup_events [] resolver selected_deps user_confirms)
    ∧ (selected ≠ [] →
        RestoreEvent.resolveCall selected
          ∈ restore_backup_events selected resolver selected_deps user_confirms)
    ∧ (selected ≠ [] → (resolver selected).has_dependencies = false →
        user_confirms = true →
        restore_backup_events selected resolver selected_deps user_confirms
          = [RestoreEvent.resolveCall selected,
             RestoreEvent.startRestore (some selected)])
    ∧ (selected ≠ [] → ∀ p,
        RestoreEvent.startRestore p
            ∈ restore_backup_events selected resolver selected_deps user_confirms →
          p = some selected ∨ p = some (js_set_dedup (selected ++ selected_deps))) := by
  refine ⟨?_, ?_, ?_, ?_, ?_, ?_⟩
  · cases user_confirms <;> simp [restore_backup_events, confirm_and_restore]
  · intro ds
    cases user_confirms <;> simp [restore_backup_events, confirm_and_restore]
  · intro ds
    cases user_confirms <;> simp [restore_backup_events, confirm_and_restore]
  · intro h
    have hlen : selected.length > 0 := List.length_pos.mpr h
    simp [restore_backup_events, hlen]
  · intro h hdep hu
    have hlen : selected.length > 0 := List.length_pos.mpr h
    subst hu
    simp [restore_backup_events, confirm_and_restore, hlen, hdep]
  · intro h p hp
    have hlen : selected.length > 0 := List.length_pos.mpr h
    have hm := merge_selected_dependencies_ne_nil selected selected_deps h
    have hmlen : (merge_selected_dependencies selected selected_deps).length > 0 :=
      List.length_pos.mpr hm
    rw [restore_backup_events, if_pos hlen] at hp
    rcases List.mem_cons.mp hp with he | he
    · exact absurd he (by simp)
    · by_cases hd : (resolver selected).has_dependencies
      · rw [if_pos hd] at he
        rcases List.mem_cons.mp he with he2 | he2
        · exact absurd he2 (by simp)
        · unfold show_dependency_dialog_continue confirm_and_restore at he2
          cases user_confirms with
          | false => simp at he2
          | true =>
            rw [if_pos rfl, if_pos hmlen] at he2
            rw [List.mem_singleton] at he2
            have hp2 : p = some (merge_selected_dependencies selected selected_deps) := by
              injection he2
            rcases merge_selected_dependencies_cases selected selected_deps with hc | hc
            · left; rw [hp2, hc]
            · right; rw [hp2, hc]
      · rw [if_neg hd] at he
        unfold confirm_and_restore at he
        cases user_confirms with
        | false => simp at he
        | true =>
          rw [if_pos rfl, if_pos hlen] at he
          rw [List.mem_singleton] at he
          left
          injection he

/-- Witness for C8: with one DocType selected and a dependency-free
resolver, the trace is one resolver call followed by the request carrying
exactly that selection. -/
theorem restore_selection_gating_witness :
    restore_backup_events ["Customer"]
        (fun _ => { has_dependencies := false, dependencies_by_doctype := []
                  , all_new_dependencies := [] })
        [] true
      = [RestoreEvent.resolveCall ["Customer"],
         RestoreEvent.startRestore (some ["Customer"])] :=
  (restore_selection_gating
    (fun _ => { has_dependencies := false, dependencies_by_doctype := []
              , all_new_dependencies := [] })
    ["Customer"] [] true).2.2.2.2.1 (by decide) rfl rfl

/-- Each restore step's log entry is attributed to the entry's own
DocType. -/
theorem restore_step_doctype (fails : String → Bool) (st : TargetState)
    (entry : ArchiveEntry) :
    ((restore_step fails st entry).2).doctype = entry.doctype := by
  unfold restore_step
  by_cases h : fails entry.doctype
  · rw [if_pos h]
  · rw [if_neg h]; rfl

/-- The restore loop over concatenated archives decomposes: the second part
is processed from the state the first part produced, and the logs are
concatenated. -/
theorem restore_append (fails : String → Bool) :
    ∀ (l1 l2 : List ArchiveEntry) (st : TargetState),
      restore fails (l1 ++ l2) st
        = ((restore fails l2 (restore fails l1 st).1).1,
           (restore fails l1 st).2 ++ (restore fails l2 (restore fails l1 st).1).2) := by
  intro l1
  induction l1 with
  | nil => intro l2 st; simp [restore]
  | cons e rest ih =>
    intro l2 st
    simp [restore, ih]

/-- C4: each DocType is processed in its own transaction.  An unexpected
failure on DocType X rolls back only X's step (the state is unchanged) and
logs `error` for X; the restore never aborts (one log entry per archive
entry, attributed to that entry's own DocType), and the DocTypes after X
are processed from exactly the state left by the DocTypes before X, with
their own independent outcomes. -/
theorem restore_doctype_isolation
    (fails : String → Bool) (pre post : List ArchiveEntry) (x : ArchiveEntry)
    (st : TargetState) (hx : fails x.doctype = true) :
    (∀ (archive : List ArchiveEntry) (s : TargetState),
        ((restore fails archive s).2).length = archive.length)
    ∧ (∀ (archive : List ArchiveEntry) (s : TargetState) (i : Nat),
        (((restore fails archive s).2)[i]?).map RestoreLogEntry.doctype
          = (archive[i]?).map ArchiveEntry.doctype)
    ∧ restore_step fails st x
        = (st, ⟨x.doctype, "error", restore_error_message x.doctype⟩)
    ∧ (restore fails (pre ++ x :: post) st).2
        = (restore fails pre st).2
            ++ ⟨x.doctype, "error", restore_error_message x.doctype⟩
              :: (restore fails post (restore fails pre st).1).2
    ∧ (restore fails (pre ++ x :: post) st).1
        = (restore fails post (restore fails pre st).1).1 := by
  have hstep : restore_step fails st x
      = (st, ⟨x.doctype, "error", restore_error_message x.doctype⟩) := by
    unfold restore_step
    rw [if_pos hx]
  refine ⟨?_, ?_, hstep, ?_, ?_⟩
  · intro archive
    induction archive with
    | nil => intro s; rfl
    | cons e rest ih => intro s; simp [restore, ih]
  · intro archive
    induction archive with
    | nil => intro s i; rfl
    | cons e rest ih =>
      intro s i
      cases i with
      | zero => simp [restore, restore_step_doctype]
      | succ n => simp [restore, ih]
  · rw [restore_append]
    have hx2 : restore_step fails (restore fails pre st).1 x
        = ((restore fails pre st).1,
           ⟨x.doctype, "error", restore_error_message x.doctype⟩) := by
      unfold restore_step
      rw [if_pos hx]
    simp [restore, hx2]
  · rw [restore_append]
    have hx2 : restore_step fails (restore fails pre st).1 x
        = ((restore fails pre st).1,
           ⟨x.doctype, "error", restore_error_message x.doctype⟩) := by
      unfold restore_step
      rw [if_pos hx]
    simp [restore, hx2]

/-- Witness for C4: a three-DocType archive whose middle DocType fails —
the log is the Customer log, then the error entry, then the Territory log
computed from the state Customer left. -/
theorem restore_doctype_isolation_witness :
    (restore (fun d => d == "Broken")
        ([⟨"Customer", [⟨"CUST-1", []⟩]⟩] ++ ⟨"Broken", []⟩ :: [⟨"Territory", []⟩])
        ⟨[], []⟩).2
      = (restore (fun d => d == "Broken") [⟨"Customer", [⟨"CUST-1", []⟩]⟩] ⟨[], []⟩).2
          ++ ⟨"Broken", "error", restore_error_message "Broken"⟩
            :: (restore (fun d => d == "Broken") [⟨"Territory", []⟩]
                  (restore (fun d => d == "Broken") [⟨"Customer", [⟨"CUST-1", []⟩]⟩]
                    ⟨[], []⟩).1).2 :=
  (restore_doctype_isolation (fun d => d == "Broken")
    [⟨"Customer", [⟨"CUST-1", []⟩]⟩] [⟨"Territory", []⟩] ⟨"Broken", []⟩ ⟨[], []⟩
    (by decide)).2.2.2.1

end DataTools
